import Mathlib

/-!
Verification development for the TextExtract repository (React web portal,
Flask/Supabase backend, desktop OCR client).  The definitions below are a
shallow embedding of the subscription/billing and session-handling logic that
the checked claims are about: the SubscriptionPage action buttons, the axios
response interceptor with its single 401 retry, the client-side token-expiry
check, the seeded subscription-plan catalog, the CSRF request interceptors,
the AuthProvider refresh/logout state transitions, the credit-bundle selector,
and the Stripe/PayPal adapter error propagation.  Prices are modelled in cents
(price times 100) so that the decimal literals of the source become naturals.
-/

namespace TextExtract

/- ===== Client-side token expiry (src/unnamed/part_002, lines 73-85, 283-285) ===== -/

/-- A stored access token as the client sees it: absent, present but not
decodable as a JWT, or decodable with an integer expiry claim (seconds). -/
inductive StoredToken where
  | noToken
  | undecodable
  | decoded (exp : Int)
deriving DecidableEq

/-- isTokenExpired from part_002: a missing token is expired, a token whose
decoding throws is expired, otherwise the token is expired when the decoded
exp claim is strictly below the current time. -/
def isTokenExpired (now : Int) : StoredToken → Bool
  | StoredToken.noToken => true
  | StoredToken.undecodable => true
  | StoredToken.decoded exp => decide (exp < now)

/-- Truthiness of the token value, the double-bang in the source. -/
def tokenPresent : StoredToken → Bool
  | StoredToken.noToken => false
  | _ => true

/-- isAuthenticated from part_002: token present and not expired. -/
def isAuthenticated (now : Int) (t : StoredToken) : Bool :=
  tokenPresent t && !(isTokenExpired now t)

/- ===== SubscriptionPage action buttons (frontend/src/pages/SubscriptionPage.js, 426-454) ===== -/

/-- The Renew Subscription button is rendered when the current plan is not the
free plan and the usage status is expired or payment_failed. -/
def renewOffered (planName status : String) : Bool :=
  planName != "free" && (status == "expired" || status == "payment_failed")

/-- The Cancel Subscription button is the else branch of the same conditional:
plan not free and status neither expired nor payment_failed. -/
def cancelOffered (planName status : String) : Bool :=
  planName != "free" && !(status == "expired" || status == "payment_failed")

/-- The Update Payment Method button is rendered whenever the plan is not free. -/
def updatePaymentOffered (planName : String) : Bool :=
  planName != "free"

/- ===== Response interceptor with single 401 retry (src/unnamed/part_002, 40-69) ===== -/

/-- Outcome of one HTTP send of a request, as the response interceptor
classifies it. -/
inductive RespOutcome where
  | ok
  | err401
  | errOther
deriving DecidableEq

/-- The response-error interceptor, unfolded over the stream of outcomes the
server returns to the successive sends of one request.  The Bool argument is
the per-request retry mark.  On a 401 with the mark unset and a refresh token
available, the interceptor calls refreshAccessToken (counted first); when that
returns true it resends the original request, now marked, and the resent
request passes through the same interceptor on the tail of the stream; in
every other case the error is propagated and nothing else runs.  The result is
the pair (refresh attempts triggered, resends performed) for this request. -/
def interceptorRuns (hasRefreshToken refreshSucceeds : Bool) :
    List RespOutcome → Bool → Nat × Nat
  | [], _ => (0, 0)
  | o :: rest, retryFlag =>
    if (o == RespOutcome.err401) && !retryFlag && hasRefreshToken then
      if refreshSucceeds then
        let p := interceptorRuns hasRefreshToken refreshSucceeds rest true
        (p.1 + 1, p.2 + 1)
      else
        (1, 0)
    else
      (0, 0)

/- ===== Seeded plan catalog (backend/database/create_tables.sql, 146-151) ===== -/

/-- One row of the subscription_plans seed, price in cents. -/
structure SeedPlan where
  name : String
  description : String
  priceCents : Nat
  currency : String
  maxRequestsPerMonth : Nat
  deviceLimit : Nat
  interval : String
deriving DecidableEq

/-- The INSERT in backend/database/create_tables.sql seeds exactly two plans. -/
def createTablesSeed : List SeedPlan :=
  [ ⟨"free", "Free tier with 20 OCR requests per month", 0, "USD", 20, 2, "month"⟩,
    ⟨"basic", "Basic tier with 200 OCR requests per month", 999, "USD", 200, 5, "month"⟩ ]

/-- The variant of the seed that appears further down in the repository (the
SQL blob bundled with AuthContext.js): three plans, basic priced 4.99. -/
def variantSeed : List SeedPlan :=
  [ ⟨"free", "Free tier with 20 OCR requests per month", 0, "USD", 20, 2, "month"⟩,
    ⟨"basic", "Basic tier with 200 OCR requests per month", 499, "USD", 200, 5, "month"⟩,
    ⟨"advance", "Advance tier with 500 OCR requests per month", 999, "USD", 500, 10, "month"⟩ ]

/-- A Subscription row as far as plan resolution needs it. -/
structure SubscriptionRow where
  planName : String
  status : String
deriving DecidableEq

/-- Modelled from the spec: the backend resolver behind GET
/subscription/user-plan is not under src/ (only its frontend callers are).
Per the spec, getUserPlan resolves the plan of the Subscription row of the
user, and a user with no Subscription row must resolve to the free plan. -/
def getUserPlan (catalog : List SeedPlan) (sub : Option SubscriptionRow) :
    Option SeedPlan :=
  match sub with
  | none => catalog.find? (fun p => p.name == "free")
  | some s => catalog.find? (fun p => p.name == s.planName)

/- ===== CSRF request interceptors (frontend/src/services/api.js, 15-26 and part_003, 16-32) ===== -/

/-- Url prefix test, mirroring config.url.startsWith of the source. -/
def urlStartsWith (s p : String) : Bool :=
  p.data.isPrefixOf s.data

/-- An outbound request as the request interceptors inspect it. -/
structure OutboundRequest where
  method : String
  url : String
deriving DecidableEq

/-- The request interceptor of frontend/src/services/api.js: the X-CSRF-TOKEN
header is attached when a CSRF token is stored, the method is not get, and the
url starts with none of login, register, complete-web-login,
request-password-reset. -/
def apiCsrfAttaches (storedCsrf : Option String) (r : OutboundRequest) : Bool :=
  storedCsrf.isSome &&
  r.method != "get" &&
  !(urlStartsWith r.url "/auth/login") &&
  !(urlStartsWith r.url "/auth/register") &&
  !(urlStartsWith r.url "/auth/complete-web-login") &&
  !(urlStartsWith r.url "/auth/request-password-reset")

/-- The request interceptor of the index.js variant (src/unnamed/part_003):
GET requests and urls starting with login, register, refresh are exempt;
otherwise the header is attached when a CSRF token is stored. -/
def indexCsrfAttaches (storedCsrf : Option String) (r : OutboundRequest) : Bool :=
  if r.method == "get" || urlStartsWith r.url "/auth/login" ||
      urlStartsWith r.url "/auth/register" || urlStartsWith r.url "/auth/refresh" then
    false
  else
    storedCsrf.isSome

/- ===== AuthProvider state transitions (src/unnamed/part_002, 88-125 and 244-281) ===== -/

/-- The AuthProvider state: React state (token, refreshToken, authUser,
refreshingToken), the localStorage entries the provider reads and writes, and
the axios default Authorization header.  csrfGen counts generateCsrfToken
calls (each call rotates state, localStorage and default header together);
logoutCalls, serverLogoutAttempts and networkRefreshCalls record the
observable calls the temporal claims are about. -/
structure AuthState where
  token : StoredToken
  refreshToken : Option String
  authUser : Option String
  refreshingToken : Bool
  lsToken : StoredToken
  lsRefreshToken : Option String
  lsUser : Option String
  authHeader : Option StoredToken
  csrfGen : Nat
  logoutCalls : Nat
  serverLogoutAttempts : Nat
  networkRefreshCalls : Nat
deriving DecidableEq

/-- logout from part_002, lines 244-281.  The server-side revocation POST is
attempted only when a state token and a state refresh token are present and
the token is unexpired; its outcome serverOk is swallowed by the inner catch.
Local cleanup then runs unconditionally: state token, refresh token and user
cleared, the three localStorage keys removed, the Authorization default header
deleted, and a fresh CSRF token generated; the function returns true.  (The
outer catch returning false is unreachable because every cleanup step is a
plain assignment.) -/
def logout (now : Int) (serverOk : Bool) (s : AuthState) : Bool × AuthState :=
  let attempted :=
    tokenPresent s.token && s.refreshToken.isSome && !(isTokenExpired now s.token)
  let _ := serverOk
  (true,
    { s with
      token := StoredToken.noToken
      refreshToken := none
      authUser := none
      lsToken := StoredToken.noToken
      lsRefreshToken := none
      lsUser := none
      authHeader := none
      csrfGen := s.csrfGen + 1
      logoutCalls := s.logoutCalls + 1
      serverLogoutAttempts := s.serverLogoutAttempts + (if attempted then 1 else 0) })

/-- Outcome of the POST /auth/refresh network call. -/
inductive RefreshOutcome where
  | ok (exp : Int)
  | fail
deriving DecidableEq

/-- refreshAccessToken from part_002, lines 88-125.  If the in-flight flag is
set the call returns false at once.  Otherwise the flag is set and the stored
refresh token is read from localStorage; if it is missing the function returns
false from inside the try block, which has no finally, so the flag stays set.
With a stored refresh token the network call runs: on success the new token is
written to state, localStorage and the default header and the flag is cleared;
on failure logout() runs, the flag is cleared, and false is returned. -/
def refreshAccessToken (env : RefreshOutcome) (now : Int) (serverOk : Bool)
    (s : AuthState) : Bool × AuthState :=
  if s.refreshingToken then (false, s)
  else
    let s1 := { s with refreshingToken := true }
    match s1.lsRefreshToken with
    | none => (false, s1)
    | some _ =>
      let s2 := { s1 with networkRefreshCalls := s1.networkRefreshCalls + 1 }
      match env with
      | RefreshOutcome.ok exp =>
          (true,
            { s2 with
              token := StoredToken.decoded exp
              lsToken := StoredToken.decoded exp
              authHeader := some (StoredToken.decoded exp)
              refreshingToken := false })
      | RefreshOutcome.fail =>
          let s3 := (logout now serverOk s2).2
          (false, { s3 with refreshingToken := false })

/-- A concrete AuthProvider state with nothing stored, for concrete runs. -/
def emptyAuthState : AuthState :=
  ⟨StoredToken.noToken, none, none, false, StoredToken.noToken, none, none, none, 0, 0, 0, 0⟩

/-- Run a sequence of refreshAccessToken calls, each with its own network
outcome, clock value and server-logout outcome, threading the state. -/
def iterateRefreshCalls : List (RefreshOutcome × Int × Bool) → AuthState → AuthState
  | [], s => s
  | (e, n, b) :: rest, s => iterateRefreshCalls rest (refreshAccessToken e n b s).2

/- ===== Credit bundles (src/unnamed/part_006, 455-485) and fulfillment ===== -/

/-- The price in cents the part_006 bundle selector assigns to a chosen
amount string: 5.99 for 200, 7.99 for 300, otherwise the default 2.99. -/
def creditBundlePriceCents (amount : String) : Nat :=
  if amount == "200" then 599 else if amount == "300" then 799 else 299

/-- The three option values of the bundle select element. -/
def creditBundleOptions : List String := ["100", "200", "300"]

/-- The plan-related columns of a users row. -/
structure UserRow where
  planType : String
  maxRequestsPerMonth : Nat
  creditRequests : Nat
  deviceLimit : Nat
deriving DecidableEq

/-- Modelled from the spec: the backend handler that fulfills a completed
/stripe/create-buy-credit-checkout session is not under src/ (only the
frontend StripeService.buyCredit caller is).  Per the spec, a successful
one-off checkout for a bundle increments the independent credit_requests
counter by the bundle amount and is not a subscription-state transition. -/
def fulfillCreditPurchase (amount : Nat) (u : UserRow) : UserRow :=
  { u with creditRequests := u.creditRequests + amount }

/- ===== Payment adapter error propagation (StripeService.js 92-115, PayPalService.js 107-128) ===== -/

/-- An error as the adapters see it: either a transport or vendor error
surfaced by the HTTP layer, or an Error object the adapter itself constructs. -/
inductive JsError where
  | vendor (msg : String)
  | jsNew (msg : String)
deriving DecidableEq

/-- Body of the POST /subscription/update-payment-method response. -/
structure UpdateSessionData where
  success : Bool
  checkoutUrl : String
deriving DecidableEq

/-- Body of the POST /stripe/create-setup-intent response. -/
structure SetupIntentData where
  success : Bool
  clientSecret : String
deriving DecidableEq

/-- StripeService.createPaymentMethodUpdateSession, frontend/src/services/
StripeService.js lines 92-115.  It posts /subscription/update-payment-method;
an error there reaches the outer catch, which logs and rethrows it unchanged.
On success:true it posts /stripe/create-setup-intent inside an inner try whose
catch replaces any error with new Error about the setup intent; on
success:false it throws new Error about initialization. -/
def createPaymentMethodUpdateSession (updateResp : Except JsError UpdateSessionData)
    (setupResp : Except JsError SetupIntentData) : Except JsError SetupIntentData :=
  match updateResp with
  | Except.error e => Except.error e
  | Except.ok d =>
    if d.success then
      match setupResp with
      | Except.ok sd => Except.ok sd
      | Except.error _ => Except.error (JsError.jsNew "Failed to create payment setup intent")
    else
      Except.error (JsError.jsNew "Failed to initialize payment method update")

/-- A mock PayPal order as PayPalClient.createOrder builds it (status CREATED);
the random order id is passed in. -/
structure PayPalOrder where
  id : String
  status : String
  amountValue : Nat
  currencyCode : String
deriving DecidableEq

/-- Result of PayPalClient.captureOrder (status COMPLETED, fixed payer). -/
structure CaptureResult where
  id : String
  status : String
  payerEmail : String
deriving DecidableEq

/-- PayPalClient.createOrder mock from PayPalService.js lines 23-33. -/
def createOrder (orderId : String) (amount : Nat) (currency : String) : PayPalOrder :=
  ⟨orderId, "CREATED", amount, currency⟩

/-- PayPalClient.captureOrder mock from PayPalService.js lines 35-44. -/
def captureOrder (orderId : String) : CaptureResult :=
  ⟨orderId, "COMPLETED", "test@example.com"⟩

/-- Body of the POST /subscription/complete-payment request. -/
structure CompletePaymentBody where
  transactionId : String
  paypalOrderId : String
  status : String
deriving DecidableEq

/-- PayPalService.processPayment, lines 107-128: create and capture the mock
order, then POST /subscription/complete-payment once; the catch logs and
rethrows the error unchanged.  net gives the outcome of that single POST as a
function of its body. -/
def processPayment (orderId txnId : String) (amount : Nat) (currency : String)
    (net : CompletePaymentBody → Except JsError Nat) : Except JsError Nat :=
  let order := createOrder orderId amount currency
  let cap := captureOrder order.id
  match net ⟨txnId, cap.id, cap.status⟩ with
  | Except.ok d => Except.ok d
  | Except.error e => Except.error e

/- ===================== Theorems ===================== -/

/-- C1 counterexample: with a basic plan in usage status cancelled, the
Cancel Subscription button is rendered although the status is not active, so
Cancel is not offered only in the active state. -/
theorem C1_counterexample_cancel_in_cancelled :
    cancelOffered "basic" "cancelled" = true ∧ "cancelled" ≠ "active" := by decide

/-- C1 (amended): the subscription page computes available actions purely
from the plan name and status string: Renew is offered exactly when the plan
is not free and the status is expired or payment_failed; Cancel is offered
exactly when the plan is not free and the status is neither expired nor
payment_failed (not only when it is active); Update payment method is offered
exactly when the effective plan is not the free tier. -/
theorem C1_actions_characterization (planName status : String) :
    (renewOffered planName status = true ↔
      planName ≠ "free" ∧ (status = "expired" ∨ status = "payment_failed")) ∧
    (cancelOffered planName status = true ↔
      planName ≠ "free" ∧ ¬(status = "expired" ∨ status = "payment_failed")) ∧
    (updatePaymentOffered planName = true ↔ planName ≠ "free") := by
  simp [renewOffered, cancelOffered, updatePaymentOffered]

theorem interceptor_marked (hasR rOk : Bool) (outs : List RespOutcome) :
    interceptorRuns hasR rOk outs true = (0, 0) := by
  cases outs with
  | nil => rfl
  | cons o rest => simp [interceptorRuns]

theorem interceptor_no_refresh_token (rOk flag : Bool) (outs : List RespOutcome) :
    interceptorRuns false rOk outs flag = (0, 0) := by
  cases outs with
  | nil => rfl
  | cons o rest => simp [interceptorRuns]

/-- C2: over every stream of server outcomes for the successive sends of one
request, the response interceptor triggers at most one refresh attempt and at
most one resend of the original request; a request already carrying the
per-request retry mark, and a request issued while no refresh token is
available, trigger no refresh and no resend at all, so no request loops. -/
theorem C2_at_most_one_refresh_and_retry (hasR rOk flag : Bool) (outs : List RespOutcome) :
    (interceptorRuns hasR rOk outs flag).1 ≤ 1 ∧
    (interceptorRuns hasR rOk outs flag).2 ≤ 1 ∧
    interceptorRuns hasR rOk outs true = (0, 0) ∧
    interceptorRuns false rOk outs flag = (0, 0) := by
  refine ⟨?_, ?_, interceptor_marked hasR rOk outs, interceptor_no_refresh_token rOk flag outs⟩ <;>
  · cases outs with
    | nil => simp [interceptorRuns]
    | cons o rest =>
      by_cases h : ((o == RespOutcome.err401) && !flag && hasR) = true
      · cases hrOk : rOk
        · simp [interceptorRuns, h, hrOk]
        · simp [interceptorRuns, h, hrOk, interceptor_marked]
      · simp [interceptorRuns, h]

/-- C3 counterexample: a token whose expiry claim equals the current time is
accepted by isAuthenticated, although its expiry does not lie in the future,
so the claimed iff with a strictly future expiry fails at the boundary. -/
theorem C3_counterexample_boundary :
    isAuthenticated 1000 (StoredToken.decoded 1000) = true ∧ ¬((1000 : Int) < 1000) := by
  decide

/-- C3 (amended): isAuthenticated is true iff a token is present, decodes,
and its expiry claim is not earlier than the current time (greater or equal,
rather than strictly in the future); in particular it is false whenever the
expiry is in the past, it takes no refresh token into account, and it is a
pure function of the stored token and the clock (no server round trip). -/
theorem C3_authenticated_iff (now : Int) (t : StoredToken) :
    isAuthenticated now t = true ↔ ∃ exp, t = StoredToken.decoded exp ∧ now ≤ exp := by
  cases t <;> simp [isAuthenticated, tokenPresent, isTokenExpired, Int.not_lt]

/-- C4 counterexample: the create_tables.sql seed contains no plan named
advance at all, and the variant seed prices basic at 4.99, not 9.99, so the
claimed catalog matches neither seed in the repository. -/
theorem C4_counterexample_no_advance_plan :
    createTablesSeed.find? (fun p => p.name == "advance") = none ∧
    variantSeed.find? (fun p => p.name == "basic" && p.priceCents == 999) = none := by
  decide

/-- C4 (amended): the create_tables.sql seed contains exactly free at 0 with
20 requests per month and basic at 9.99 with 200; the variant seed contains
free at 0 with 20, basic at 4.99 with 200 and advance at 9.99 with 500; and
for a user with no Subscription row the (spec-modelled) getUserPlan resolves
to the free plan of the catalog, whose limits in both seeds are 20 requests
per month, device limit 2, price 0. -/
theorem C4_seeded_catalog_and_free_resolution :
    createTablesSeed.map (fun p => (p.name, p.priceCents, p.maxRequestsPerMonth)) =
      [("free", 0, 20), ("basic", 999, 200)] ∧
    variantSeed.map (fun p => (p.name, p.priceCents, p.maxRequestsPerMonth)) =
      [("free", 0, 20), ("basic", 499, 200), ("advance", 999, 500)] ∧
    (∀ catalog : List SeedPlan,
      getUserPlan catalog none = catalog.find? (fun p => p.name == "free")) ∧
    (getUserPlan createTablesSeed none).map
        (fun p => (p.maxRequestsPerMonth, p.deviceLimit, p.priceCents)) = some (20, 2, 0) ∧
    (getUserPlan variantSeed none).map
        (fun p => (p.maxRequestsPerMonth, p.deviceLimit, p.priceCents)) = some (20, 2, 0) := by
  refine ⟨by decide, by decide, fun c => rfl, by decide, by decide⟩

/-- C5 counterexample: through the api.js interceptor, a POST to
/auth/refresh with a stored CSRF token does get the X-CSRF-TOKEN header
(refresh is not exempt there), while a POST to /auth/request-password-reset
does not get it, contradicting the claimed exemption set. -/
theorem C5_counterexample_refresh_not_exempt :
    apiCsrfAttaches (some "csrftok") ⟨"post", "/auth/refresh"⟩ = true ∧
    apiCsrfAttaches (some "csrftok") ⟨"post", "/auth/request-password-reset"⟩ = false := by
  decide

/-- C5 (amended): when a CSRF token is stored, the index.js interceptor
attaches the header to exactly the requests that are not GET and whose url
starts with none of login, register, refresh; the api.js interceptor instead
exempts login, register, complete-web-login and request-password-reset (so
refresh is not exempt there); with no stored CSRF token neither interceptor
attaches the header. -/
theorem C5_csrf_exemptions (csrf : String) (r : OutboundRequest) :
    (indexCsrfAttaches (some csrf) r = true ↔
      ¬r.method = "get" ∧ ¬urlStartsWith r.url "/auth/login" = true ∧
      ¬urlStartsWith r.url "/auth/register" = true ∧
      ¬urlStartsWith r.url "/auth/refresh" = true) ∧
    (apiCsrfAttaches (some csrf) r = true ↔
      ¬r.method = "get" ∧ ¬urlStartsWith r.url "/auth/login" = true ∧
      ¬urlStartsWith r.url "/auth/register" = true ∧
      ¬urlStartsWith r.url "/auth/complete-web-login" = true ∧
      ¬urlStartsWith r.url "/auth/request-password-reset" = true) ∧
    apiCsrfAttaches none r = false ∧
    indexCsrfAttaches none r = false := by
  refine ⟨?_, ?_, ?_, ?_⟩
  · simp [indexCsrfAttaches, ite_eq_iff]
    tauto
  · simp [apiCsrfAttaches]
    tauto
  · simp [apiCsrfAttaches]
  · simp [indexCsrfAttaches]

theorem refresh_inflight_noop (e : RefreshOutcome) (n : Int) (b : Bool) (s : AuthState)
    (h : s.refreshingToken = true) : refreshAccessToken e n b s = (false, s) := by
  simp [refreshAccessToken, h]

theorem iterate_inflight_fixed (calls : List (RefreshOutcome × Int × Bool)) (s : AuthState)
    (h : s.refreshingToken = true) : iterateRefreshCalls calls s = s := by
  induction calls with
  | nil => rfl
  | cons c rest ih =>
    obtain ⟨e, n, b⟩ := c
    rw [iterateRefreshCalls, refresh_inflight_noop e n b s h]
    exact ih

/-- C6 counterexample: a refreshAccessToken call on a state with no stored
refresh token returns false (the call fails) yet never calls logout,
contradicting the claim that every failing call triggers logout before
returning false. -/
theorem C6_counterexample_failed_call_without_logout :
    (refreshAccessToken RefreshOutcome.fail 0 true emptyAuthState).1 = false ∧
    (refreshAccessToken RefreshOutcome.fail 0 true emptyAuthState).2.logoutCalls = 0 := by
  decide

/-- C6 (amended): refreshAccessToken is single-flight guarded (a call on a
state whose in-flight flag is set returns false immediately, changing nothing
and issuing no network refresh), and a call whose network refresh request
fails triggers logout before returning false; but a call short-circuited by
the guard, or one finding no stored refresh token, returns false without
logout (the missing-token path moreover leaves the in-flight flag set). -/
theorem C6_single_flight_and_logout_on_network_failure (env : RefreshOutcome) (now : Int)
    (serverOk : Bool) (s : AuthState) (rt : String) :
    refreshAccessToken env now serverOk { s with refreshingToken := true } =
      (false, { s with refreshingToken := true }) ∧
    ({ s with refreshingToken := true } : AuthState).networkRefreshCalls =
      s.networkRefreshCalls ∧
    (refreshAccessToken RefreshOutcome.fail now serverOk
        { s with refreshingToken := false, lsRefreshToken := some rt }).1 = false ∧
    (refreshAccessToken RefreshOutcome.fail now serverOk
        { s with refreshingToken := false, lsRefreshToken := some rt }).2.logoutCalls =
      s.logoutCalls + 1 ∧
    refreshAccessToken env now serverOk
        { s with refreshingToken := false, lsRefreshToken := none } =
      (false, { s with refreshingToken := true, lsRefreshToken := none }) ∧
    ({ s with refreshingToken := true, lsRefreshToken := none } : AuthState).logoutCalls =
      s.logoutCalls := by
  refine ⟨refresh_inflight_noop env now serverOk _ rfl, rfl, ?_, ?_, ?_, rfl⟩
  · simp [refreshAccessToken, logout]
  · simp [refreshAccessToken, logout]
  · simp [refreshAccessToken]

/-- C7: for every call to logout, local cleanup is unconditional: state
token, refresh token and user are cleared, the localStorage copies are
removed, the Authorization default header is deleted, a fresh CSRF token is
generated, and the function returns true; the resulting state is the same
whether the best-effort server revocation call succeeds, fails, or is
skipped. -/
theorem C7_logout_unconditional_cleanup (now : Int) (serverOk : Bool) (s : AuthState) :
    (logout now serverOk s).1 = true ∧
    (logout now serverOk s).2.token = StoredToken.noToken ∧
    (logout now serverOk s).2.refreshToken = none ∧
    (logout now serverOk s).2.authUser = none ∧
    (logout now serverOk s).2.lsToken = StoredToken.noToken ∧
    (logout now serverOk s).2.lsRefreshToken = none ∧
    (logout now serverOk s).2.lsUser = none ∧
    (logout now serverOk s).2.authHeader = none ∧
    (logout now serverOk s).2.csrfGen = s.csrfGen + 1 ∧
    (logout now serverOk s).2 = (logout now (!serverOk) s).2 := by
  simp [logout]

/-- C8: purchasing the 200-credit bundle increases credit_requests by exactly
200 and leaves plan_type, max_requests_per_month and device_limit unchanged
(backend fulfillment modelled from the spec), and the client bundle selector
offers exactly the bundles 100 at 2.99, 200 at 5.99 and 300 at 7.99 (cents:
299, 599, 799). -/
theorem C8_credit_bundle_purchase (u : UserRow) :
    (fulfillCreditPurchase 200 u).creditRequests = u.creditRequests + 200 ∧
    (fulfillCreditPurchase 200 u).planType = u.planType ∧
    (fulfillCreditPurchase 200 u).maxRequestsPerMonth = u.maxRequestsPerMonth ∧
    (fulfillCreditPurchase 200 u).deviceLimit = u.deviceLimit ∧
    creditBundleOptions.map (fun a => (a, creditBundlePriceCents a)) =
      [("100", 299), ("200", 599), ("300", 799)] := by
  refine ⟨rfl, rfl, rfl, rfl, by decide⟩

/-- C9 counterexample: when the setup-intent POST fails with a transport
error, createPaymentMethodUpdateSession surfaces a freshly constructed Error
instead of the original error object, so not every adapter operation
surfaces transport errors to the caller unchanged. -/
theorem C9_counterexample_setup_error_replaced :
    createPaymentMethodUpdateSession (Except.ok ⟨true, "u"⟩)
        (Except.error (JsError.vendor "network timeout")) =
      Except.error (JsError.jsNew "Failed to create payment setup intent") ∧
    JsError.jsNew "Failed to create payment setup intent" ≠
      JsError.vendor "network timeout" := by
  exact ⟨rfl, by decide⟩

/-- C9 (amended): adapter operations perform no retry and no backoff, and
PayPalService.processPayment and the first call of
createPaymentMethodUpdateSession surface a transport or vendor error to the
caller unchanged; but a transport error of the inner setup-intent call in
createPaymentMethodUpdateSession is replaced by a constructed Error before
reaching the caller; each failure is terminal for that call. -/
theorem C9_error_propagation (e : JsError) (oid tid : String) (amt : Nat) (cur : String)
    (setupResp : Except JsError SetupIntentData) (url : String) :
    processPayment oid tid amt cur (fun _ => Except.error e) = Except.error e ∧
    (∀ d : Nat, processPayment oid tid amt cur (fun _ => Except.ok d) = Except.ok d) ∧
    createPaymentMethodUpdateSession (Except.error e) setupResp = Except.error e ∧
    (∀ sd : SetupIntentData,
      createPaymentMethodUpdateSession (Except.ok ⟨true, url⟩) (Except.ok sd) = Except.ok sd) ∧
    createPaymentMethodUpdateSession (Except.ok ⟨true, url⟩) (Except.error e) =
      Except.error (JsError.jsNew "Failed to create payment setup intent") := by
  refine ⟨rfl, fun d => rfl, rfl, fun sd => rfl, rfl⟩

/-- C10: a refreshAccessToken call finding no stored refresh token returns
false without calling logout and without clearing the in-flight flag, so
every subsequent refreshAccessToken call on that provider state, under any
sequence of environments, returns false immediately and issues no further
network refresh request. -/
theorem C10_missing_refresh_token_latches (env : RefreshOutcome) (now : Int) (serverOk : Bool)
    (s : AuthState) (calls : List (RefreshOutcome × Int × Bool)) :
    refreshAccessToken env now serverOk
        { s with refreshingToken := false, lsRefreshToken := none } =
      (false, { s with refreshingToken := true, lsRefreshToken := none }) ∧
    ({ s with refreshingToken := true, lsRefreshToken := none } : AuthState).logoutCalls =
      s.logoutCalls ∧
    ({ s with refreshingToken := true, lsRefreshToken := none } : AuthState).networkRefreshCalls =
      s.networkRefreshCalls ∧
    (∀ e2 n2 b2, refreshAccessToken e2 n2 b2
        { s with refreshingToken := true, lsRefreshToken := none } =
      (false, { s with refreshingToken := true, lsRefreshToken := none })) ∧
    (iterateRefreshCalls calls
        { s with refreshingToken := true, lsRefreshToken := none }).networkRefreshCalls =
      s.networkRefreshCalls := by
  refine ⟨?_, rfl, rfl, fun e2 n2 b2 => refresh_inflight_noop e2 n2 b2 _ rfl, ?_⟩
  · simp [refreshAccessToken]
  · rw [iterate_inflight_fixed _ _ rfl]

end TextExtract
